import Mathlib

/-!
Shallow embedding of the XMLHttpRequestPromise request builder.

The repository has two variants of the same class:
* the later variant, src/XMLHttpRequestPromise.js, with an isOpen lifecycle
  flag, an explicit openRequest operation, and a sendRequest operation;
* the earlier variant, src/unnamed/part_000, without the lifecycle flag,
  whose build operation opens the handle implicitly inside the send path.

The builder delegates all real I/O to a host-supplied XMLHttpRequest handle.
We model the handle as a record of the delegated effects (open calls, header
calls, registered listeners, completion-handler assignment, send calls), and
each builder method as a function from the builder state to the pair of the
state after the call and an optional synchronously thrown error.  JavaScript
exceptions leave already-performed mutations in place, so a method that
throws returns the state as mutated up to the throw; in this code every
throw happens before any mutation, which the theorems make explicit.

Event listeners: both setEventListener and setUploadEventListener build a
wrapper closure from the event name and then register it on the main handle
(respectively the upload sub-handle).  The wrapper closes over a primary
callback and a possibly-null secondary callback; we keep callbacks abstract
and describe a wrapper by the invocation it performs on a given event
object, as a value of WrapperRun.  Invoking a null function value throws a
TypeError in the host language; the wrapper description records that case
explicitly.  The handle stores the (event name, options) pair of each
successful registration; the behavior of the registered wrapper is exactly
the one the switch maps that event name to.
-/

namespace XHRP

/-- Synchronous errors thrown by the builder.  Each constructor carries the
data interpolated into the corresponding Error message in the source:
the already-open message names the configured method and URL, and the
not-implemented and invalid-event messages name the offending event. -/
inductive BuilderError where
  | alreadyOpen (method url : String)
  | invalidVerb
  | notImplemented (event : String)
  | invalidEvent (event : String)
  | notOpen
  deriving DecidableEq, Repr

/-- Model of an event object passed to a listener wrapper: the fields the
wrappers read are target.status, lengthComputable, loaded and total. -/
structure Evt where
  targetStatus : Nat
  lengthComputable : Bool
  loaded : Nat
  total : Nat
  deriving DecidableEq, Repr

/-- Argument list of one callback invocation: callback(evt) or
callback(progress, evt). -/
inductive CallbackArgs where
  | event (evt : Evt)
  | progressAndEvent (p : Nat) (evt : Evt)
  deriving DecidableEq, Repr

/-- What a wrapper does when the host dispatches an event to it: invoke the
primary callback, invoke the secondary (optional) callback, or throw a
TypeError because it invoked a callback slot holding null. -/
inductive WrapperRun where
  | callPrimary (args : CallbackArgs)
  | callSecondary (args : CallbackArgs)
  | throwTypeError
  deriving DecidableEq, Repr

/-- Effects delegated to the underlying XMLHttpRequest handle.  Listener
registrations are recorded as (event name, options) pairs; the wrapper
registered for an event name is the one the switch of the registering
method maps that name to. -/
structure XHR where
  openCalls : List (String × String × Bool) := []
  requestHeaders : List (String × String) := []
  listeners : List (String × Option Bool) := []
  uploadListeners : List (String × Option Bool) := []
  onloadSet : Bool := false
  onerrorSet : Bool := false
  sendCalls : List String := []
  deriving DecidableEq, Repr

/-- Terminal completion of a sent request: either the load handler fires
with the handle holding a status, status text and response payload, or the
transport-error handler fires with the handle holding a status and status
text. -/
inductive Terminal where
  | load (status : Nat) (statusText : String) (response : String)
  | transportError (status : Nat) (statusText : String)
  deriving DecidableEq, Repr

/-- Settled state of the promise returned by the send operation. -/
inductive Settled where
  | resolved (response : String)
  | rejected (status : Nat) (statusText : String)
  deriving DecidableEq, Repr

/-- Upper-casing as method.toUpperCase() performs it on the inputs of
interest: character-wise upper-casing of the string.  Stated over the
character list so that it reduces inside the kernel. -/
def jsToUpper (s : String) : String := String.mk (s.data.map Char.toUpper)

end XHRP

namespace Later

open XHRP

/-- Builder state of the later variant (src/XMLHttpRequestPromise.js):
constructor defaults are method GET, url /, async true, isOpen false, and a
fresh handle. -/
structure XMLHttpRequestPromise where
  xhr : XHR := {}
  method : String := "GET"
  url : String := "/"
  async : Bool := true
  isOpen : Bool := false
  deriving DecidableEq, Repr

/-- The nine verbs accepted by the setMethod switch (lines 77-91). -/
def httpVerbs : List String :=
  ["GET", "HEAD", "POST", "PUT", "DELETE", "CONNECT", "OPTIONS", "TRACE", "PATCH"]

/-- setMethod (lines 71-93): throws if the request is open; otherwise
upper-cases the argument, stores it if it is one of the nine verbs, and
throws an invalid-verb error otherwise. -/
def setMethod (b : XMLHttpRequestPromise) (method : String) :
    XMLHttpRequestPromise × Option BuilderError :=
  if b.isOpen then
    (b, some (.alreadyOpen b.method b.url))
  else
    let m := jsToUpper method
    if m ∈ httpVerbs then
      ({ b with method := m }, none)
    else
      (b, some .invalidVerb)

/-- setUrl (lines 102-109): throws if the request is open; otherwise stores
the URL. -/
def setUrl (b : XMLHttpRequestPromise) (url : String) :
    XMLHttpRequestPromise × Option BuilderError :=
  if b.isOpen then
    (b, some (.alreadyOpen b.method b.url))
  else
    ({ b with url := url }, none)

/-- setAsync (lines 120-127): throws if the request is open; otherwise
stores the flag. -/
def setAsync (b : XMLHttpRequestPromise) (async : Bool) :
    XMLHttpRequestPromise × Option BuilderError :=
  if b.isOpen then
    (b, some (.alreadyOpen b.method b.url))
  else
    ({ b with async := async }, none)

/-- openRequest (lines 135-142): throws if already open; otherwise invokes
the handle's open primitive with the current method, URL and async flag and
marks the builder open. -/
def openRequest (b : XMLHttpRequestPromise) :
    XMLHttpRequestPromise × Option BuilderError :=
  if b.isOpen then
    (b, some (.alreadyOpen b.method b.url))
  else
    ({ b with
        xhr := { b.xhr with openCalls := b.xhr.openCalls ++ [(b.method, b.url, b.async)] },
        isOpen := true }, none)

/-- setXhrHeader (lines 150-153): delegates to the handle's header
primitive unconditionally. -/
def setXhrHeader (b : XMLHttpRequestPromise) (headerName headerValue : String) :
    XMLHttpRequestPromise × Option BuilderError :=
  ({ b with
      xhr := { b.xhr with
        requestHeaders := b.xhr.requestHeaders ++ [(headerName, headerValue)] } }, none)

/-- The switch of setEventListener (lines 166-206): maps an event name
either to the wrapper built for it or to the thrown error.  A wrapper takes
the presence of the secondary callback (optionalCallback is non-null) and
the dispatched event.  The load wrapper calls optionalCallback when the
status is not exactly 200, which throws a TypeError when that slot is null. -/
def mainWrapperSwitch (event : String) :
    Except BuilderError (Bool → Evt → WrapperRun) :=
  if event = "abort" then
    .ok (fun _ evt => .callPrimary (.event evt))
  else if event = "error" then
    .ok (fun _ evt => .callPrimary (.event evt))
  else if event = "load" then
    .ok (fun hasSecondary evt =>
      if evt.targetStatus = 200 then .callPrimary (.event evt)
      else if hasSecondary then .callSecondary (.event evt)
      else .throwTypeError)
  else if event = "loadend" then
    .error (.notImplemented event)
  else if event = "loadstart" then
    .error (.notImplemented event)
  else if event = "progress" then
    .ok (fun _ evt =>
      if evt.lengthComputable then
        .callPrimary (.progressAndEvent (evt.loaded * 100 / evt.total) evt)
      else
        .callPrimary (.progressAndEvent 0 evt))
  else if event = "timeout" then
    .error (.notImplemented event)
  else if event = "readystatechange" then
    .error (.notImplemented event)
  else
    .error (.invalidEvent event)

/-- The switch of setUploadEventListener (lines 223-263), transcribed from
its own source block; the claims compare it with the switch above. -/
def uploadWrapperSwitch (event : String) :
    Except BuilderError (Bool → Evt → WrapperRun) :=
  if event = "abort" then
    .ok (fun _ evt => .callPrimary (.event evt))
  else if event = "error" then
    .ok (fun _ evt => .callPrimary (.event evt))
  else if event = "load" then
    .ok (fun hasSecondary evt =>
      if evt.targetStatus = 200 then .callPrimary (.event evt)
      else if hasSecondary then .callSecondary (.event evt)
      else .throwTypeError)
  else if event = "loadend" then
    .error (.notImplemented event)
  else if event = "loadstart" then
    .error (.notImplemented event)
  else if event = "progress" then
    .ok (fun _ evt =>
      if evt.lengthComputable then
        .callPrimary (.progressAndEvent (evt.loaded * 100 / evt.total) evt)
      else
        .callPrimary (.progressAndEvent 0 evt))
  else if event = "timeout" then
    .error (.notImplemented event)
  else if event = "readystatechange" then
    .error (.notImplemented event)
  else
    .error (.invalidEvent event)

/-- setEventListener (lines 163-210): runs the switch; on a mapped event it
registers the wrapper on the main handle and returns the builder, otherwise
the switch error propagates and nothing is registered. -/
def setEventListener (b : XMLHttpRequestPromise) (event : String)
    (hasSecondary : Bool) (options : Option Bool) :
    XMLHttpRequestPromise × Option BuilderError :=
  match mainWrapperSwitch event with
  | .error e => (b, some e)
  | .ok _ =>
      ({ b with
          xhr := { b.xhr with listeners := b.xhr.listeners ++ [(event, options)] } }, none)

/-- setUploadEventListener (lines 220-267): same switch, but the wrapper is
registered on the upload sub-handle. -/
def setUploadEventListener (b : XMLHttpRequestPromise) (event : String)
    (hasSecondary : Bool) (options : Option Bool) :
    XMLHttpRequestPromise × Option BuilderError :=
  match uploadWrapperSwitch event with
  | .error e => (b, some e)
  | .ok _ =>
      ({ b with
          xhr := { b.xhr with
            uploadListeners := b.xhr.uploadListeners ++ [(event, options)] } }, none)

/-- sendRequest (lines 273-311), synchronous part: throws a not-open error
if the builder is not open, before assigning the onload and onerror
completion handlers and before invoking the handle's send primitive;
otherwise it assigns both handlers and sends the body. -/
def sendRequest (b : XMLHttpRequestPromise) (body : String) :
    XMLHttpRequestPromise × Option BuilderError :=
  if !b.isOpen then
    (b, some .notOpen)
  else
    ({ b with
        xhr := { b.xhr with
          onloadSet := true,
          onerrorSet := true,
          sendCalls := b.xhr.sendCalls ++ [body] } }, none)

/-- Settlement of the promise built by makeRequest inside sendRequest
(lines 287-308): the onload handler reads request.xhr.status and resolves
with request.xhr.response when it is at least 200 and below 300, otherwise
rejects with the status and statusText of the handle; the onerror handler
rejects with the status and statusText of the handle. -/
def makeRequestSettle : Terminal → Settled
  | .load status statusText response =>
      if 200 ≤ status ∧ status < 300 then .resolved response
      else .rejected status statusText
  | .transportError status statusText => .rejected status statusText

/-- Every builder operation of the later variant, for stating lifecycle
invariants over arbitrary call sequences. -/
inductive Op where
  | setMethodOp (m : String)
  | setUrlOp (u : String)
  | setAsyncOp (a : Bool)
  | openRequestOp
  | setXhrHeaderOp (n v : String)
  | setEventListenerOp (ev : String) (hs : Bool) (opts : Option Bool)
  | setUploadEventListenerOp (ev : String) (hs : Bool) (opts : Option Bool)
  | sendRequestOp (body : String)
  deriving DecidableEq, Repr

/-- Apply one operation to a builder state. -/
def applyOp : Op → XMLHttpRequestPromise →
    XMLHttpRequestPromise × Option BuilderError
  | .setMethodOp m, b => setMethod b m
  | .setUrlOp u, b => setUrl b u
  | .setAsyncOp a, b => setAsync b a
  | .openRequestOp, b => openRequest b
  | .setXhrHeaderOp n v, b => setXhrHeader b n v
  | .setEventListenerOp ev hs opts, b => setEventListener b ev hs opts
  | .setUploadEventListenerOp ev hs opts, b => setUploadEventListener b ev hs opts
  | .sendRequestOp body, b => sendRequest b body

end Later

namespace Early

open XHRP

/-- Builder state of the earlier variant (src/unnamed/part_000): no async
field and no lifecycle flag; constructor defaults are method GET and url /. -/
structure XMLHttpRequestPromise where
  xhr : XHR := {}
  method : String := "GET"
  url : String := "/"
  deriving DecidableEq, Repr

/-- setMethod of the earlier variant (lines 59-77): same verb switch as the
later variant but with no open guard. -/
def setMethod (b : XMLHttpRequestPromise) (method : String) :
    XMLHttpRequestPromise × Option BuilderError :=
  let m := jsToUpper method
  if m ∈ Later.httpVerbs then
    ({ b with method := m }, none)
  else
    (b, some .invalidVerb)

/-- Settlement of the promise built by makeRequest inside build
(lines 225-247) of the earlier variant.  makeRequest is a plain function
expression invoked as makeRequest(this, body), so inside its body the
binding of this is not the builder and not the handle: it is undefined when
the file runs as strict-mode code, and the global object otherwise.  The
onload and onerror handlers are arrow functions and inherit that binding,
yet they read this.status for both the branch test and the rejected status
field, while resolving with request.xhr.response and rejecting with
request.xhr.statusText.  We therefore parametrize the settlement by the
numeric comparison value of the ambient this.status; in a browser the
non-strict value is globalThis.status, the status-bar string, empty by
default and hence comparing as 0.  In strict mode the property read throws
and the promise never settles, which also never resolves the payload.  In
no environment is it the status of the terminal completion of the handle. -/
def buildSettle (thisStatus : Nat) : Terminal → Settled
  | .load _ statusText response =>
      if 200 ≤ thisStatus ∧ thisStatus < 300 then .resolved response
      else .rejected thisStatus statusText
  | .transportError _ statusText => .rejected thisStatus statusText

end Early

namespace Later

open XHRP

/-- The wrapper the load case of both listener switches builds (lines
177-185 and 234-241): primary callback on status exactly 200, otherwise the
secondary callback slot is invoked, which throws when that slot is null. -/
def loadWrapper : Bool → Evt → WrapperRun := fun hasSecondary evt =>
  if evt.targetStatus = 200 then .callPrimary (.event evt)
  else if hasSecondary then .callSecondary (.event evt)
  else .throwTypeError

/-- The wrapper the progress case of both listener switches builds (lines
190-198 and 247-255): floor(loaded * 100 / total) when the length is
computable, 0 otherwise, always to the primary callback. -/
def progressWrapper : Bool → Evt → WrapperRun := fun _ evt =>
  if evt.lengthComputable then
    .callPrimary (.progressAndEvent (evt.loaded * 100 / evt.total) evt)
  else
    .callPrimary (.progressAndEvent 0 evt)

end Later

open XHRP

/-- C4: a load listener registered through either registration path
dispatches on the status of the event target being exactly 200: the primary
callback receives the event at 200, the secondary callback receives it at
every other status, 204 and all other 2xx statuses included. -/
theorem C4_load_dispatch_exactly_200 (hs : Bool) (evt : Evt) :
    Later.mainWrapperSwitch "load" = .ok Later.loadWrapper ∧
    Later.uploadWrapperSwitch "load" = .ok Later.loadWrapper ∧
    (evt.targetStatus = 200 →
      Later.loadWrapper hs evt = .callPrimary (.event evt)) ∧
    (evt.targetStatus ≠ 200 → hs = true →
      Later.loadWrapper hs evt = .callSecondary (.event evt)) := by
  refine ⟨rfl, rfl, ?_, ?_⟩
  · intro h
    simp [Later.loadWrapper, h]
  · intro h hhs
    simp [Later.loadWrapper, h, hhs]

/-- C4 witness: status 200 goes to the primary callback, status 404 and the
2xx status 204 go to the secondary callback. -/
theorem C4_load_dispatch_witness :
    Later.loadWrapper true ⟨200, false, 0, 0⟩ =
      .callPrimary (.event ⟨200, false, 0, 0⟩) ∧
    Later.loadWrapper true ⟨404, false, 0, 0⟩ =
      .callSecondary (.event ⟨404, false, 0, 0⟩) ∧
    Later.loadWrapper true ⟨204, false, 0, 0⟩ =
      .callSecondary (.event ⟨204, false, 0, 0⟩) :=
  ⟨(C4_load_dispatch_exactly_200 true ⟨200, false, 0, 0⟩).2.2.1 rfl,
   (C4_load_dispatch_exactly_200 true ⟨404, false, 0, 0⟩).2.2.2 (by decide) rfl,
   (C4_load_dispatch_exactly_200 true ⟨204, false, 0, 0⟩).2.2.2 (by decide) rfl⟩

/-- C5: a progress listener registered through either registration path
calls the primary callback with floor(loaded * 100 / total) and the event
when the event length is computable, and with 0 and the event otherwise. -/
theorem C5_progress_dispatch (hs : Bool) (evt : Evt) :
    Later.mainWrapperSwitch "progress" = .ok Later.progressWrapper ∧
    Later.uploadWrapperSwitch "progress" = .ok Later.progressWrapper ∧
    (evt.lengthComputable = true → 0 < evt.total →
      Later.progressWrapper hs evt =
        .callPrimary (.progressAndEvent (evt.loaded * 100 / evt.total) evt)) ∧
    (evt.lengthComputable = false →
      Later.progressWrapper hs evt = .callPrimary (.progressAndEvent 0 evt)) := by
  refine ⟨rfl, rfl, ?_, ?_⟩
  · intro h _
    simp [Later.progressWrapper, h]
  · intro h
    simp [Later.progressWrapper, h]

/-- C5 witness: loaded 50 of total 200 yields progress 25; an event without
a computable length yields progress 0. -/
theorem C5_progress_dispatch_witness :
    Later.progressWrapper true ⟨200, true, 50, 200⟩ =
      .callPrimary (.progressAndEvent 25 ⟨200, true, 50, 200⟩) ∧
    Later.progressWrapper true ⟨200, false, 0, 0⟩ =
      .callPrimary (.progressAndEvent 0 ⟨200, false, 0, 0⟩) :=
  ⟨(C5_progress_dispatch true ⟨200, true, 50, 200⟩).2.2.1 rfl (by decide),
   (C5_progress_dispatch true ⟨200, false, 0, 0⟩).2.2.2 rfl⟩

/-- C10: a load wrapper whose secondary callback slot is null throws a
TypeError on every event whose target status is not 200; it never falls
back to the primary callback. -/
theorem C10_null_secondary_throws (evt : Evt) (h : evt.targetStatus ≠ 200) :
    Later.mainWrapperSwitch "load" = .ok Later.loadWrapper ∧
    Later.loadWrapper false evt = .throwTypeError ∧
    (∀ args, Later.loadWrapper false evt ≠ .callPrimary args) := by
  refine ⟨rfl, ?_, ?_⟩
  · simp [Later.loadWrapper, h]
  · intro args
    simp [Later.loadWrapper, h]

/-- C10 witness: a load event with status 404 and no secondary callback
throws a TypeError. -/
theorem C10_null_secondary_throws_witness :
    Later.loadWrapper false ⟨404, false, 0, 0⟩ = .throwTypeError :=
  (C10_null_secondary_throws ⟨404, false, 0, 0⟩ (by decide)).2.1

/-- C1: the later variant settles the send promise from the handle status:
204 resolves with the response payload, 500 rejects with status and status
text, a transport error rejects with status and status text.  The earlier
variant does not: its completion handlers read this.status, whose ambient
binding is never the handle (numerically 0 against the default global
status string in non-strict mode), so a load completion with status 204
rejects instead of resolving the payload. -/
theorem C1_settlement_eval :
    Later.makeRequestSettle (.load 204 "No Content" "payload") = .resolved "payload" ∧
    Later.makeRequestSettle (.load 500 "Internal Server Error" "oops") =
      .rejected 500 "Internal Server Error" ∧
    Later.makeRequestSettle (.transportError 0 "") = .rejected 0 "" ∧
    Early.buildSettle 0 (.load 204 "No Content" "payload") =
      .rejected 0 "No Content" := by
  refine ⟨by decide, by decide, by decide, by decide⟩

/-- The settlement of the earlier variant ignores the status of the
terminal load completion entirely: two load completions differing only in
their handle status settle identically for every ambient this.status
value, so no choice of handle status can switch its branch. -/
theorem earlySettle_ignores_handle_status (thisStatus status status' : Nat)
    (statusText response : String) :
    Early.buildSettle thisStatus (.load status statusText response) =
      Early.buildSettle thisStatus (.load status' statusText response) := rfl

/-- C3: with the builder not yet open, setMethod stores the upper-cased
argument and succeeds exactly when that upper-case form is one of the nine
verbs of httpVerbs, and otherwise throws an invalid-verb error leaving the
stored method unchanged; the earlier variant behaves the same with no open
guard. -/
theorem C3_setMethod_verbs (b : Later.XMLHttpRequestPromise)
    (bE : Early.XMLHttpRequestPromise) (m : String) (hOpen : b.isOpen = false) :
    (jsToUpper m ∈ Later.httpVerbs →
      Later.setMethod b m = ({ b with method := jsToUpper m }, none) ∧
      Early.setMethod bE m = ({ bE with method := jsToUpper m }, none)) ∧
    (jsToUpper m ∉ Later.httpVerbs →
      Later.setMethod b m = (b, some .invalidVerb) ∧
      Early.setMethod bE m = (bE, some .invalidVerb)) := by
  constructor <;> intro h <;>
    simp [Later.setMethod, Early.setMethod, hOpen, h]

/-- C3 witness: the lower-case input post is stored as POST by both
variants, and the input FETCH is rejected by both with the stored method
left at its default. -/
theorem C3_setMethod_verbs_witness :
    Later.setMethod {} "post" = ({ method := "POST" }, none) ∧
    Early.setMethod {} "post" = ({ method := "POST" }, none) ∧
    Later.setMethod {} "FETCH" = ({}, some .invalidVerb) ∧
    Early.setMethod {} "FETCH" = ({}, some .invalidVerb) := by
  refine ⟨?_, ?_, ?_, ?_⟩
  · exact ((C3_setMethod_verbs {} {} "post" rfl).1 (by decide)).1
  · exact ((C3_setMethod_verbs {} {} "post" rfl).1 (by decide)).2
  · exact ((C3_setMethod_verbs {} {} "FETCH" rfl).2 (by decide)).1
  · exact ((C3_setMethod_verbs {} {} "FETCH" rfl).2 (by decide)).2

/-- C6: for every builder state, registering loadend, loadstart, timeout or
readystatechange on either the main handle or the upload sub-handle throws
a not-implemented error naming the event, and registering any event name
outside the mapped set throws an invalid-event error naming the event; in
both cases the call returns the state unchanged, never silently ignoring
the registration. -/
theorem C6_unimplemented_and_invalid_events (b : Later.XMLHttpRequestPromise)
    (ev : String) (hs : Bool) (opts : Option Bool) :
    (ev = "loadend" ∨ ev = "loadstart" ∨ ev = "timeout" ∨ ev = "readystatechange" →
      Later.setEventListener b ev hs opts = (b, some (.notImplemented ev)) ∧
      Later.setUploadEventListener b ev hs opts = (b, some (.notImplemented ev))) ∧
    (ev ∉ ["abort", "error", "load", "loadend", "loadstart", "progress",
        "timeout", "readystatechange"] →
      Later.setEventListener b ev hs opts = (b, some (.invalidEvent ev)) ∧
      Later.setUploadEventListener b ev hs opts = (b, some (.invalidEvent ev))) := by
  constructor
  · rintro (rfl | rfl | rfl | rfl) <;> exact ⟨rfl, rfl⟩
  · intro h
    simp only [List.mem_cons, List.not_mem_nil, or_false, not_or] at h
    obtain ⟨h1, h2, h3, h4, h5, h6, h7, h8⟩ := h
    constructor <;>
      simp [Later.setEventListener, Later.setUploadEventListener,
        Later.mainWrapperSwitch, Later.uploadWrapperSwitch,
        h1, h2, h3, h4, h5, h6, h7, h8]

/-- C6 witness: registering loadend throws a not-implemented error naming
loadend, and registering the unmapped name click throws an invalid-event
error naming click, on both handles, with the state unchanged. -/
theorem C6_unimplemented_and_invalid_events_witness :
    Later.setEventListener {} "loadend" true none =
      ({}, some (.notImplemented "loadend")) ∧
    Later.setUploadEventListener {} "loadend" true none =
      ({}, some (.notImplemented "loadend")) ∧
    Later.setEventListener {} "click" true none =
      ({}, some (.invalidEvent "click")) ∧
    Later.setUploadEventListener {} "click" true none =
      ({}, some (.invalidEvent "click")) := by
  refine ⟨?_, ?_, ?_, ?_⟩
  · exact ((C6_unimplemented_and_invalid_events {} "loadend" true none).1 (Or.inl rfl)).1
  · exact ((C6_unimplemented_and_invalid_events {} "loadend" true none).1 (Or.inl rfl)).2
  · exact ((C6_unimplemented_and_invalid_events {} "click" true none).2 (by decide)).1
  · exact ((C6_unimplemented_and_invalid_events {} "click" true none).2 (by decide)).2

/-- C7: sendRequest on a builder that is not open throws the not-open error
synchronously and leaves the state unchanged: in particular neither
completion handler is assigned and the handle send primitive is not
invoked. -/
theorem C7_send_requires_open (b : Later.XMLHttpRequestPromise) (body : String)
    (h : b.isOpen = false) :
    Later.sendRequest b body = (b, some .notOpen) ∧
    (Later.sendRequest b body).1.xhr.onloadSet = b.xhr.onloadSet ∧
    (Later.sendRequest b body).1.xhr.onerrorSet = b.xhr.onerrorSet ∧
    (Later.sendRequest b body).1.xhr.sendCalls = b.xhr.sendCalls := by
  simp [Later.sendRequest, h]

/-- C7 witness: sending on a freshly constructed builder throws the
not-open error with nothing delegated to the handle. -/
theorem C7_send_requires_open_witness :
    Later.sendRequest {} "body" = ({}, some .notOpen) :=
  (C7_send_requires_open {} "body" rfl).1

/-- Listener registration on the main handle never changes the isOpen flag. -/
theorem setEventListener_fst_isOpen (b : Later.XMLHttpRequestPromise) (ev : String)
    (hs : Bool) (opts : Option Bool) :
    ((Later.setEventListener b ev hs opts).1).isOpen = b.isOpen := by
  rcases h : Later.mainWrapperSwitch ev with e | w <;>
    simp [Later.setEventListener, h]

/-- Listener registration on the upload sub-handle never changes the isOpen
flag. -/
theorem setUploadEventListener_fst_isOpen (b : Later.XMLHttpRequestPromise)
    (ev : String) (hs : Bool) (opts : Option Bool) :
    ((Later.setUploadEventListener b ev hs opts).1).isOpen = b.isOpen := by
  rcases h : Later.uploadWrapperSwitch ev with e | w <;>
    simp [Later.setUploadEventListener, h]

/-- Every operation other than openRequest leaves the isOpen flag as it
found it. -/
theorem applyOp_fst_isOpen_of_ne (op : Later.Op) (b : Later.XMLHttpRequestPromise)
    (h : op ≠ Later.Op.openRequestOp) :
    ((Later.applyOp op b).1).isOpen = b.isOpen := by
  cases op with
  | setMethodOp m =>
      simp only [Later.applyOp, Later.setMethod]
      split_ifs <;> rfl
  | setUrlOp u =>
      simp only [Later.applyOp, Later.setUrl]
      split_ifs <;> rfl
  | setAsyncOp a =>
      simp only [Later.applyOp, Later.setAsync]
      split_ifs <;> rfl
  | openRequestOp => exact absurd rfl h
  | setXhrHeaderOp n v => rfl
  | setEventListenerOp ev hs opts => exact setEventListener_fst_isOpen b ev hs opts
  | setUploadEventListenerOp ev hs opts =>
      exact setUploadEventListener_fst_isOpen b ev hs opts
  | sendRequestOp body =>
      simp only [Later.applyOp, Later.sendRequest]
      split_ifs <;> rfl

/-- C2: with the builder open, setMethod, setUrl and setAsync all throw the
already-open error naming the configured method and URL with the state
unchanged, and a second openRequest throws the same error instead of being
a no-op; no operation ever resets an open builder, and with the builder
closed openRequest succeeds and marks it open, the setters mutate their
fields, and openRequest is the only operation that can flip isOpen to true:
the fields are mutable exactly while isOpen is false. -/
theorem C2_isOpen_lifecycle (b : Later.XMLHttpRequestPromise) (m u : String)
    (a : Bool) (op : Later.Op) (hOpen : b.isOpen = true) :
    Later.setMethod b m = (b, some (.alreadyOpen b.method b.url)) ∧
    Later.setUrl b u = (b, some (.alreadyOpen b.method b.url)) ∧
    Later.setAsync b a = (b, some (.alreadyOpen b.method b.url)) ∧
    Later.openRequest b = (b, some (.alreadyOpen b.method b.url)) ∧
    ((Later.applyOp op b).1).isOpen = true ∧
    (∀ c : Later.XMLHttpRequestPromise, c.isOpen = false →
      ((Later.openRequest c).2 = none ∧ ((Later.openRequest c).1).isOpen = true) ∧
      (jsToUpper m ∈ Later.httpVerbs →
        Later.setMethod c m = ({ c with method := jsToUpper m }, none)) ∧
      Later.setUrl c u = ({ c with url := u }, none) ∧
      Later.setAsync c a = ({ c with async := a }, none) ∧
      (((Later.applyOp op c).1).isOpen = true → op = .openRequestOp)) := by
  refine ⟨?_, ?_, ?_, ?_, ?_, ?_⟩
  · simp [Later.setMethod, hOpen]
  · simp [Later.setUrl, hOpen]
  · simp [Later.setAsync, hOpen]
  · simp [Later.openRequest, hOpen]
  · by_cases hop : op = Later.Op.openRequestOp
    · subst hop
      simp [Later.applyOp, Later.openRequest, hOpen]
    · rw [applyOp_fst_isOpen_of_ne op b hop]
      exact hOpen
  · intro c hc
    refine ⟨⟨?_, ?_⟩, ?_, ?_, ?_, ?_⟩
    · simp [Later.openRequest, hc]
    · simp [Later.openRequest, hc]
    · intro hm
      simp [Later.setMethod, hc, hm]
    · simp [Later.setUrl, hc]
    · simp [Later.setAsync, hc]
    · intro habs
      by_contra hne
      rw [applyOp_fst_isOpen_of_ne op c hne, hc] at habs
      exact Bool.false_ne_true habs

/-- C2 witness: on an open builder with the default configuration, setMethod
and openRequest throw the already-open error naming GET and the root URL,
while on a fresh closed builder openRequest succeeds. -/
theorem C2_isOpen_lifecycle_witness :
    Later.setMethod { isOpen := true } "post" =
      ({ isOpen := true }, some (.alreadyOpen "GET" "/")) ∧
    Later.openRequest { isOpen := true } =
      ({ isOpen := true }, some (.alreadyOpen "GET" "/")) ∧
    (Later.openRequest {}).2 = none := by
  have h := C2_isOpen_lifecycle { isOpen := true } "post" "/x" false .openRequestOp rfl
  exact ⟨h.1, h.2.2.2.1, ((h.2.2.2.2.2 {} rfl).1).1⟩

/-- C8: the event-name switches of setEventListener and
setUploadEventListener map every event name, every callback-presence value
and every event object to the same outcome, the same thrown error on
unsupported or invalid names and extensionally equal wrappers on supported
ones; the two operations differ only in the handle that receives the
registration, the main handle for setEventListener and the upload
sub-handle for setUploadEventListener. -/
theorem C8_main_upload_agree (b : Later.XMLHttpRequestPromise) (ev : String)
    (hs : Bool) (opts : Option Bool) :
    Later.mainWrapperSwitch ev = Later.uploadWrapperSwitch ev ∧
    (Later.setEventListener b ev hs opts).2 =
      (Later.setUploadEventListener b ev hs opts).2 ∧
    ((Later.setEventListener b ev hs opts).2 = none →
      (Later.setEventListener b ev hs opts).1 =
        { b with xhr := { b.xhr with
          listeners := b.xhr.listeners ++ [(ev, opts)] } } ∧
      (Later.setUploadEventListener b ev hs opts).1 =
        { b with xhr := { b.xhr with
          uploadListeners := b.xhr.uploadListeners ++ [(ev, opts)] } }) := by
  have hsw : Later.mainWrapperSwitch ev = Later.uploadWrapperSwitch ev := rfl
  refine ⟨hsw, ?_⟩
  rcases h : Later.mainWrapperSwitch ev with e | w
  · have h' : Later.uploadWrapperSwitch ev = .error e := hsw.symm.trans h
    refine ⟨?_, ?_⟩
    · simp [Later.setEventListener, Later.setUploadEventListener, h, h']
    · intro hnone
      simp [Later.setEventListener, h] at hnone
  · have h' : Later.uploadWrapperSwitch ev = .ok w := hsw.symm.trans h
    refine ⟨?_, ?_⟩
    · simp [Later.setEventListener, Later.setUploadEventListener, h, h']
    · intro _
      exact ⟨by simp [Later.setEventListener, h],
        by simp [Later.setUploadEventListener, h']⟩

/-- C8 witness: registering abort succeeds on both paths, recording the
registration on the main handle for setEventListener and on the upload
sub-handle for setUploadEventListener. -/
theorem C8_main_upload_agree_witness :
    (Later.setEventListener {} "abort" true none).1 =
      { xhr := { listeners := [("abort", none)] } } ∧
    (Later.setUploadEventListener {} "abort" true none).1 =
      { xhr := { uploadListeners := [("abort", none)] } } :=
  (C8_main_upload_agree {} "abort" true none).2.2 rfl

/-- C9: a failed listener registration is atomic: whenever setEventListener
or setUploadEventListener throws, the builder state is returned unchanged,
so no listener was attached to either handle and no configuration field was
touched; the handle delegation happens only after the event-name switch
succeeds. -/
theorem C9_listener_failure_atomic (b : Later.XMLHttpRequestPromise) (ev : String)
    (hs : Bool) (opts : Option Bool) :
    (∀ e, (Later.setEventListener b ev hs opts).2 = some e →
      (Later.setEventListener b ev hs opts).1 = b) ∧
    (∀ e, (Later.setUploadEventListener b ev hs opts).2 = some e →
      (Later.setUploadEventListener b ev hs opts).1 = b) := by
  constructor
  · intro e he
    rcases h : Later.mainWrapperSwitch ev with e' | w <;>
      simp [Later.setEventListener, h] at he ⊢
  · intro e he
    rcases h : Later.uploadWrapperSwitch ev with e' | w <;>
      simp [Later.setUploadEventListener, h] at he ⊢

/-- C9 witness: the failed registrations of loadend on the main handle and
timeout on the upload sub-handle both return the fresh builder unchanged. -/
theorem C9_listener_failure_atomic_witness :
    (Later.setEventListener {} "loadend" true none).1 = {} ∧
    (Later.setUploadEventListener {} "timeout" true none).1 = {} :=
  ⟨(C9_listener_failure_atomic {} "loadend" true none).1
      (.notImplemented "loadend") rfl,
   (C9_listener_failure_atomic {} "timeout" true none).2
      (.notImplemented "timeout") rfl⟩
